import Mathlib

/-!
Shallow embedding of the krate crates.io client library (src/src/lib.rs).

The library fetches crate metadata from the crates.io registry.  Pure parts
(accessors, validation, error classification, header construction) are
embedded directly.  The HTTP transport is abstracted as a function from the
outgoing user-agent header and the request url to a send outcome; the JSON
body of a response is an abstract syntax tree and the serde-derived decoding
of the Krate record tree is embedded as explicit decoding functions.
-/

namespace Krates

/-- Models Rust `HashMap<String, Vec<String>>` (the feature map of a crate
version) as an association list; the claims treat the map as an opaque value. -/
def Features : Type := List (String × List String)

instance : DecidableEq Features := by
  unfold Features
  infer_instance

/-- Embedding of `struct KrateVersion` (lib.rs lines 44-53). -/
structure KrateVersion where
  crate_size : Option Int
  license : Option String
  num : String
  readme_path : String
  yanked : Bool
  features : Option Features
  id : Int
deriving DecidableEq

/-- Embedding of `struct KrateCategory` (lib.rs lines 55-63). -/
structure KrateCategory where
  category : String
  crates_cnt : Int
  created_at : String
  description : String
  id : String
  slug : String
deriving DecidableEq

/-- Embedding of `struct KrateMetadata` (lib.rs lines 65-85). -/
structure KrateMetadata where
  categories : List String
  created_at : String
  description : String
  documentation : Option String
  downloads : Int
  exact_match : Bool
  homepage : Option String
  id : String
  keywords : List String
  max_version : String
  max_stable_version : String
  name : String
  newest_version : String
  recent_downloads : Int
  repository : String
  updated_at : String
  versions : List Int
deriving DecidableEq

/-- Embedding of `struct KrateKeyword` (lib.rs lines 87-93). -/
structure KrateKeyword where
  crates_cnt : Int
  created_at : String
  id : String
  keyword : String
deriving DecidableEq

/-- Embedding of `struct Krate` (lib.rs lines 35-42); the field `krate` is
decoded from the JSON field named `crate`. -/
structure Krate where
  categories : List KrateCategory
  versions : List KrateVersion
  krate : KrateMetadata
  keywords : Option (List (Option KrateKeyword))
deriving DecidableEq

/-- Embedding of `Krate::get_latest` (lib.rs lines 19-21):
`String::from(&self.versions[0].num)`.  The Rust indexing `self.versions[0]`
panics when `versions` is empty; that panic is modelled as `none`, and on a
non-empty list the result is `some` of the first number. -/
def Krate.get_latest (self : Krate) : Option String :=
  (self.versions.head?).map (fun v => v.num)

/-- The loop body of `Krate::get_features_for_version` (lib.rs lines 24-30):
for each version in order, if its `num` equals the requested version and its
`features` field is present, return it; otherwise continue with the rest. -/
def featuresLoop (version : String) : List KrateVersion → Option Features
  | [] => none
  | v :: rest =>
    if v.num == version then
      match v.features with
      | some features => some features
      | none => featuresLoop version rest
    else
      featuresLoop version rest

/-- Embedding of `Krate::get_features_for_version` (lib.rs lines 23-32). -/
def Krate.get_features_for_version (self : Krate) (version : String) : Option Features :=
  featuresLoop version self.versions

/-- Constant `CRATES_IO_URL` (lib.rs line 7). -/
def CRATES_IO_URL : String := "https://crates.io/api/v1/crates"

/-- Constant `UNIQUE_USER_AGENT` (lib.rs line 8). -/
def UNIQUE_USER_AGENT : String := "krates/0.3.0"

/-- The Unicode White_Space property, which Rust `char::is_whitespace` tests. -/
def rust_char_is_whitespace (c : Char) : Bool :=
  let n := c.toNat
  (9 ≤ n && n ≤ 13) || n == 32 || n == 0x85 || n == 0xA0 || n == 0x1680 ||
    (0x2000 ≤ n && n ≤ 0x200A) || n == 0x2028 || n == 0x2029 || n == 0x202F ||
    n == 0x205F || n == 0x3000

/-- Rust `str::trim`: remove leading and trailing whitespace characters. -/
def rust_str_trim (s : String) : String :=
  String.mk (((s.data.dropWhile rust_char_is_whitespace).reverse.dropWhile
    rust_char_is_whitespace).reverse)

/-- Embedding of `has_empty_user_agent` (lib.rs lines 193-195):
`user_agent.trim().len() == 0`. -/
def has_empty_user_agent (user_agent : String) : Bool :=
  (rust_str_trim user_agent).length == 0

/-- The validation failure message used by `build_sync`, `build_asnyc` and
`get_async` (lib.rs lines 148-150, 167-169, 218-220). -/
def USER_AGENT_ERROR_MSG : String :=
  "User Agent must be a string with at least one character"

/-- Models `reqwest::Error`: the optional HTTP status it carries (queried by
`handle_error` through `e.status()`) and its displayed description. -/
structure ReqwestError where
  status : Option Nat
  desc : String
deriving DecidableEq

/-- Embedding of `enum KrateError` (lib.rs lines 10-16). -/
inductive KrateError where
  | krateNotFound
  | otherKrateError (e : ReqwestError)
deriving DecidableEq

/-- The `thiserror` display strings of `KrateError` (lib.rs lines 12 and 14):
a fixed message for `KrateNotFound` and `Server Status Error: {0}` for
`OtherKrateError`. -/
def KrateError.message : KrateError → String
  | .krateNotFound => "Crate name is not found. Did you mispell the crate name?"
  | .otherKrateError e => "Server Status Error: " ++ e.desc

/-- The `anyhow::Error` values the library can return: a validation failure
built with `anyhow!` (lib.rs lines 148, 167, 218), a `reqwest::Error`
propagated with `?` (send, client build, or body decode), or a `KrateError`
converted with `.into()` (lib.rs lines 115, 130, 211, 238). -/
inductive KError where
  | configError (msg : String)
  | reqwest (e : ReqwestError)
  | krate (e : KrateError)
deriving DecidableEq

/-- The message an `anyhow::Error` displays to the caller via `to_string()`. -/
def KError.message : KError → String
  | .configError msg => msg
  | .reqwest e => e.desc
  | .krate e => e.message

/-- Embedding of `handle_error` (lib.rs lines 185-191). -/
def handle_error (e : ReqwestError) : KrateError :=
  if e.status == some 404 then
    KrateError.krateNotFound
  else
    KrateError.otherKrateError e

/-- JSON values, the input of the serde-derived decoding of `Krate`. -/
inductive Json where
  | null
  | bool (b : Bool)
  | num (n : Int)
  | str (s : String)
  | arr (elems : List Json)
  | obj (fields : List (String × Json))

/-- A response as seen after `send()` succeeds: its HTTP status code and its
body, already parsed into a JSON value. -/
structure HttpResponse where
  status : Nat
  body : Json

/-- The abstracted HTTP transport: from the outgoing user-agent header value
and the request url to the outcome of `send()`. -/
def Net : Type := String → String → Except ReqwestError HttpResponse

/-- Field lookup in a JSON object; the registry is assumed not to repeat keys,
so the first occurrence is taken. -/
def Json.getField (fields : List (String × Json)) (key : String) : Option Json :=
  match fields.find? (fun kv => kv.fst == key) with
  | some kv => some kv.snd
  | none => none

/-- Serde decoding of a JSON string. -/
def decodeString : Json → Except String String
  | .str s => Except.ok s
  | _ => Except.error "invalid type: expected a string"

/-- Serde decoding of a JSON integer. -/
def decodeInt : Json → Except String Int
  | .num n => Except.ok n
  | _ => Except.error "invalid type: expected an integer"

/-- Serde decoding of a JSON boolean. -/
def decodeBool : Json → Except String Bool
  | .bool b => Except.ok b
  | _ => Except.error "invalid type: expected a boolean"

/-- Serde decoding of a JSON array, element by element. -/
def decodeListWith (f : Json → Except String α) : Json → Except String (List α)
  | .arr elems => elems.mapM f
  | _ => Except.error "invalid type: expected a sequence"

/-- Serde decoding of a nullable value (`Option` nested inside a field):
`null` becomes `none`, anything else is decoded. -/
def decodeNullable (f : Json → Except String α) : Json → Except String (Option α)
  | .null => Except.ok none
  | j => (f j).map some

/-- Serde decoding of a required struct field: absence is a decode error. -/
def reqField (fields : List (String × Json)) (key : String)
    (f : Json → Except String α) : Except String α :=
  match Json.getField fields key with
  | some j => f j
  | none => Except.error ("missing field " ++ key)

/-- Serde decoding of an `Option` struct field: a missing field and an
explicit `null` both become `none`. -/
def optField (fields : List (String × Json)) (key : String)
    (f : Json → Except String α) : Except String (Option α) :=
  match Json.getField fields key with
  | none => Except.ok none
  | some Json.null => Except.ok none
  | some j => (f j).map some

/-- Serde decoding of `HashMap<String, Vec<String>>` from a JSON object. -/
def decodeFeatures : Json → Except String Features
  | .obj fields =>
    fields.mapM (fun kv => (decodeListWith decodeString kv.snd).map (fun l => (kv.fst, l)))
  | _ => Except.error "invalid type: expected a map"

/-- Serde-derived decoding of `KrateVersion` (lib.rs lines 44-53). -/
def decodeKrateVersion : Json → Except String KrateVersion
  | .obj fields => do
    let crate_size ← optField fields "crate_size" decodeInt
    let license ← optField fields "license" decodeString
    let num ← reqField fields "num" decodeString
    let readme_path ← reqField fields "readme_path" decodeString
    let yanked ← reqField fields "yanked" decodeBool
    let features ← optField fields "features" decodeFeatures
    let id ← reqField fields "id" decodeInt
    Except.ok { crate_size, license, num, readme_path, yanked, features, id }
  | _ => Except.error "invalid type: expected a map"

/-- Serde-derived decoding of `KrateCategory` (lib.rs lines 55-63). -/
def decodeKrateCategory : Json → Except String KrateCategory
  | .obj fields => do
    let category ← reqField fields "category" decodeString
    let crates_cnt ← reqField fields "crates_cnt" decodeInt
    let created_at ← reqField fields "created_at" decodeString
    let description ← reqField fields "description" decodeString
    let id ← reqField fields "id" decodeString
    let slug ← reqField fields "slug" decodeString
    Except.ok { category, crates_cnt, created_at, description, id, slug }
  | _ => Except.error "invalid type: expected a map"

/-- Serde-derived decoding of `KrateMetadata` (lib.rs lines 65-85). -/
def decodeKrateMetadata : Json → Except String KrateMetadata
  | .obj fields => do
    let categories ← reqField fields "categories" (decodeListWith decodeString)
    let created_at ← reqField fields "created_at" decodeString
    let description ← reqField fields "description" decodeString
    let documentation ← optField fields "documentation" decodeString
    let downloads ← reqField fields "downloads" decodeInt
    let exact_match ← reqField fields "exact_match" decodeBool
    let homepage ← optField fields "homepage" decodeString
    let id ← reqField fields "id" decodeString
    let keywords ← reqField fields "keywords" (decodeListWith decodeString)
    let max_version ← reqField fields "max_version" decodeString
    let max_stable_version ← reqField fields "max_stable_version" decodeString
    let name ← reqField fields "name" decodeString
    let newest_version ← reqField fields "newest_version" decodeString
    let recent_downloads ← reqField fields "recent_downloads" decodeInt
    let repository ← reqField fields "repository" decodeString
    let updated_at ← reqField fields "updated_at" decodeString
    let versions ← reqField fields "versions" (decodeListWith decodeInt)
    Except.ok { categories, created_at, description, documentation, downloads,
                exact_match, homepage, id, keywords, max_version,
                max_stable_version, name, newest_version, recent_downloads,
                repository, updated_at, versions }
  | _ => Except.error "invalid type: expected a map"

/-- Serde-derived decoding of `KrateKeyword` (lib.rs lines 87-93). -/
def decodeKrateKeyword : Json → Except String KrateKeyword
  | .obj fields => do
    let crates_cnt ← reqField fields "crates_cnt" decodeInt
    let created_at ← reqField fields "created_at" decodeString
    let id ← reqField fields "id" decodeString
    let keyword ← reqField fields "keyword" decodeString
    Except.ok { crates_cnt, created_at, id, keyword }
  | _ => Except.error "invalid type: expected a map"

/-- Serde-derived decoding of the top-level `Krate` record (lib.rs lines
35-42): the accepted documents are exactly the JSON objects offering the
required fields with the required shapes; nothing about the length of the
`versions` array is checked. -/
def decodeKrate : Json → Except String Krate
  | .obj fields => do
    let categories ← reqField fields "categories" (decodeListWith decodeKrateCategory)
    let versions ← reqField fields "versions" (decodeListWith decodeKrateVersion)
    let krate ← reqField fields "crate" decodeKrateMetadata
    let keywords ← optField fields "keywords"
      (decodeListWith (decodeNullable decodeKrateKeyword))
    Except.ok { categories, versions, krate, keywords }
  | _ => Except.error "invalid type: expected a map"

/-- Models `reqwest::Response::error_for_status`: an error carrying the
status for client errors (400-499) and server errors (500-599), the response
itself otherwise. -/
def errorForStatus (res : HttpResponse) : Except ReqwestError HttpResponse :=
  if 400 ≤ res.status && res.status ≤ 599 then
    Except.error { status := some res.status,
                   desc := "HTTP status error " ++ toString res.status }
  else
    Except.ok res

/-- Models `Response::json::<Krate>()`: decode the body, wrapping a decode
failure as a `reqwest::Error` that carries the decode description and no
HTTP status. -/
def resJson (res : HttpResponse) : Except ReqwestError Krate :=
  match decodeKrate res.body with
  | Except.ok k => Except.ok k
  | Except.error d => Except.error { status := none, desc := d }

/-- Embedding of `SyncKrateClient` (lib.rs lines 95-98): the held reqwest
client is represented by the user-agent header it was configured with. -/
structure SyncKrateClient where
  user_agent : String
deriving DecidableEq

/-- Embedding of `AsyncKrateClient` (lib.rs lines 100-103). -/
structure AsyncKrateClient where
  user_agent : String
deriving DecidableEq

/-- Embedding of `SyncKrateClient::get` (lib.rs lines 106-117). -/
def SyncKrateClient.get (self : SyncKrateClient) (net : Net) (crate_name : String) :
    Except KError Krate :=
  let url := CRATES_IO_URL ++ "/" ++ crate_name
  match net self.user_agent url with
  | Except.error e => Except.error (KError.reqwest e)
  | Except.ok res =>
    match errorForStatus res with
    | Except.ok res =>
      match resJson res with
      | Except.ok krate => Except.ok krate
      | Except.error e => Except.error (KError.reqwest e)
    | Except.error e => Except.error (KError.krate (handle_error e))

/-- Embedding of `AsyncKrateClient::get_async` (lib.rs lines 120-133); the
await points are sequentialised away, which preserves the per-call semantics. -/
def AsyncKrateClient.get_async (self : AsyncKrateClient) (net : Net) (crate_name : String) :
    Except KError Krate :=
  let url := CRATES_IO_URL ++ "/" ++ crate_name
  match net self.user_agent url with
  | Except.error e => Except.error (KError.reqwest e)
  | Except.ok res =>
    match errorForStatus res with
    | Except.ok res =>
      match resJson res with
      | Except.ok krate => Except.ok krate
      | Except.error e => Except.error (KError.reqwest e)
    | Except.error e => Except.error (KError.krate (handle_error e))

/-- Embedding of `KrateClientBuilder` (lib.rs lines 135-137). -/
structure KrateClientBuilder where
  user_agent : String
deriving DecidableEq

/-- Embedding of `KrateClientBuilder::new` (lib.rs lines 140-144). -/
def KrateClientBuilder.new (user_agent : String) : KrateClientBuilder :=
  { user_agent := user_agent }

/-- Embedding of `KrateClientBuilder::build_sync` (lib.rs lines 146-163).
The underlying reqwest client construction is modelled as always succeeding. -/
def KrateClientBuilder.build_sync (self : KrateClientBuilder) :
    Except KError SyncKrateClient :=
  if has_empty_user_agent self.user_agent then
    Except.error (KError.configError USER_AGENT_ERROR_MSG)
  else
    Except.ok { user_agent :=
      self.user_agent ++ " - Brought to you by: " ++ UNIQUE_USER_AGENT }

/-- Embedding of `KrateClientBuilder::build_asnyc` (lib.rs lines 165-182),
keeping the spelling of the source. -/
def KrateClientBuilder.build_asnyc (self : KrateClientBuilder) :
    Except KError AsyncKrateClient :=
  if has_empty_user_agent self.user_agent then
    Except.error (KError.configError USER_AGENT_ERROR_MSG)
  else
    Except.ok { user_agent :=
      self.user_agent ++ " - Brought to you by: " ++ UNIQUE_USER_AGENT }

/-- Embedding of the module-level convenience function `get` (lib.rs lines
197-213).  Note that, unlike `get_async`, this function performs no
`has_empty_user_agent` validation: it configures the client and issues the
request for any caller-supplied user agent. -/
def get (crate_name : String) (user_agent : String) (net : Net) :
    Except KError Krate :=
  let url := CRATES_IO_URL ++ "/" ++ crate_name
  let operator_user_agent := user_agent ++ " - Brought to you by: " ++ UNIQUE_USER_AGENT
  match net operator_user_agent url with
  | Except.error e => Except.error (KError.reqwest e)
  | Except.ok res =>
    match errorForStatus res with
    | Except.ok res =>
      match resJson res with
      | Except.ok krate => Except.ok krate
      | Except.error e => Except.error (KError.reqwest e)
    | Except.error e => Except.error (KError.krate (handle_error e))

/-- Embedding of the module-level convenience function `get_async` (lib.rs
lines 215-240), which does validate the user agent before any network use. -/
def get_async (crate_name : String) (user_agent : String) (net : Net) :
    Except KError Krate :=
  if has_empty_user_agent user_agent then
    Except.error (KError.configError USER_AGENT_ERROR_MSG)
  else
    let url := CRATES_IO_URL ++ "/" ++ crate_name
    let operator_user_agent := user_agent ++ " - Brought to you by: " ++ UNIQUE_USER_AGENT
    match net operator_user_agent url with
    | Except.error e => Except.error (KError.reqwest e)
    | Except.ok res =>
      match errorForStatus res with
      | Except.ok res =>
        match resJson res with
        | Except.ok krate => Except.ok krate
        | Except.error e => Except.error (KError.reqwest e)
      | Except.error e => Except.error (KError.krate (handle_error e))

/-- The composition the spec describes for the sync convenience path: an
ephemeral builder, `build_sync`, then a single fetch. -/
def builderFetchSync (crate_name : String) (user_agent : String) (net : Net) :
    Except KError Krate :=
  match (KrateClientBuilder.new user_agent).build_sync with
  | Except.error e => Except.error e
  | Except.ok client => client.get net crate_name

/-- The composition the spec describes for the async convenience path: an
ephemeral builder, `build_asnyc`, then a single fetch. -/
def builderFetchAsync (crate_name : String) (user_agent : String) (net : Net) :
    Except KError Krate :=
  match (KrateClientBuilder.new user_agent).build_asnyc with
  | Except.error e => Except.error e
  | Except.ok client => client.get_async net crate_name

/-- Concrete metadata value used in witnesses and counterexamples. -/
def sampleMetadata : KrateMetadata :=
  { categories := [], created_at := "2020-01-01", description := "d",
    documentation := none, downloads := 1, exact_match := false,
    homepage := none, id := "serde", keywords := [],
    max_version := "1.0.0", max_stable_version := "1.0.0", name := "serde",
    newest_version := "1.0.0", recent_downloads := 1, repository := "r",
    updated_at := "2020-01-02", versions := [1] }

/-- A version carrying a feature map. -/
def vFeat : KrateVersion :=
  { crate_size := none, license := some "MIT", num := "1.0.0",
    readme_path := "/r", yanked := false,
    features := some [("serde", ["dep-serde"])], id := 1 }

/-- A version with the same number as `vFeat` but no feature map. -/
def vNoFeat : KrateVersion :=
  { crate_size := none, license := none, num := "1.0.0",
    readme_path := "/r", yanked := false, features := none, id := 2 }

/-- An older version with a distinct number and no feature map. -/
def vOld : KrateVersion :=
  { crate_size := none, license := none, num := "0.9.0",
    readme_path := "/r", yanked := false, features := none, id := 3 }

/-- A concrete record with two versions, newest first. -/
def sampleKrate : Krate :=
  { categories := [], versions := [vFeat, vOld], krate := sampleMetadata,
    keywords := none }

/-- A concrete record with an empty versions list. -/
def emptyKrate : Krate :=
  { categories := [], versions := [], krate := sampleMetadata,
    keywords := none }

/-- A concrete record in which two versions share the number 1.0.0, the
first of them without a features field. -/
def dupKrate : Krate :=
  { categories := [], versions := [vNoFeat, vFeat], krate := sampleMetadata,
    keywords := none }

/-- JSON document for `sampleMetadata` (optional fields omitted). -/
def sampleMetadataJson : Json :=
  Json.obj [("categories", Json.arr []), ("created_at", Json.str "2020-01-01"),
    ("description", Json.str "d"), ("downloads", Json.num 1),
    ("exact_match", Json.bool false), ("id", Json.str "serde"),
    ("keywords", Json.arr []), ("max_version", Json.str "1.0.0"),
    ("max_stable_version", Json.str "1.0.0"), ("name", Json.str "serde"),
    ("newest_version", Json.str "1.0.0"), ("recent_downloads", Json.num 1),
    ("repository", Json.str "r"), ("updated_at", Json.str "2020-01-02"),
    ("versions", Json.arr [Json.num 1])]

/-- A structurally well-formed registry response whose `versions` array is
empty. -/
def emptyVersionsJson : Json :=
  Json.obj [("categories", Json.arr []), ("versions", Json.arr []),
    ("crate", sampleMetadataJson), ("keywords", Json.null)]

/-- A transport on which every request comes back with HTTP status 404. -/
def net404 : Net := fun _ _ => Except.ok { status := 404, body := Json.null }

/-- A transport on which every request comes back 200 with a body that does
not decode as a Krate record. -/
def net200Bad : Net := fun _ _ => Except.ok { status := 200, body := Json.null }

/-- A string has length 0 exactly when it is the empty string. -/
theorem length_beq_zero_iff (s : String) : (s.length == 0) = true ↔ s = "" := by
  rw [beq_iff_eq]
  cases s with
  | mk data =>
    constructor
    · intro h
      have h2 : data = [] := List.length_eq_zero.mp h
      subst h2
      rfl
    · intro h
      rw [h]
      rfl

/-- The validation predicate holds exactly when the trimmed user agent is
the empty string. -/
theorem has_empty_user_agent_iff (ua : String) :
    has_empty_user_agent ua = true ↔ rust_str_trim ua = "" := by
  unfold has_empty_user_agent
  exact length_beq_zero_iff (rust_str_trim ua)

/-- The feature-lookup loop returns the features of the first version that
both matches the requested number and carries a features field. -/
theorem featuresLoop_eq_find (version : String) (l : List KrateVersion) :
    featuresLoop version l =
      (l.find? (fun ver => ver.num == version && (ver.features).isSome)).bind
        (fun ver => ver.features) := by
  induction l with
  | nil => rfl
  | cons v rest ih =>
    cases h : v.num == version with
    | false => simp [featuresLoop, h, ih]
    | true =>
      cases hf : v.features with
      | none => simp [featuresLoop, h, hf, ih]
      | some f => simp [featuresLoop, h, hf]

/-- The feature-lookup loop equals: among the versions whose number matches,
the first present features field. -/
theorem featuresLoop_eq_findSome (version : String) (l : List KrateVersion) :
    featuresLoop version l =
      (l.filter (fun ver => ver.num == version)).findSome? (fun ver => ver.features) := by
  induction l with
  | nil => rfl
  | cons v rest ih =>
    cases h : v.num == version with
    | false => simp [featuresLoop, h, ih]
    | true =>
      cases hf : v.features with
      | none => simp [featuresLoop, h, hf, ih, List.findSome?]
      | some f => simp [featuresLoop, h, hf, List.findSome?]

/-- The feature lookup succeeds exactly when some version matches the number
and carries a features field. -/
theorem featuresLoop_isSome (version : String) (l : List KrateVersion) :
    (featuresLoop version l).isSome =
      l.any (fun ver => ver.num == version && (ver.features).isSome) := by
  induction l with
  | nil => rfl
  | cons v rest ih =>
    cases h : v.num == version with
    | false => simp [featuresLoop, h, ih]
    | true =>
      cases hf : v.features with
      | none => simp [featuresLoop, h, hf, ih]
      | some f => simp [featuresLoop, h, hf]

/-- The async convenience function is, for every input, the very composition
of an ephemeral builder, `build_asnyc` and one fetch. -/
theorem get_async_eq_builderFetchAsync (crate_name ua : String) (net : Net) :
    get_async crate_name ua net = builderFetchAsync crate_name ua net := by
  unfold get_async builderFetchAsync KrateClientBuilder.build_asnyc KrateClientBuilder.new
  cases hb : has_empty_user_agent ua with
  | true => simp [hb]
  | false => simp [hb, AsyncKrateClient.get_async]

/-- The sync convenience function agrees with the builder composition only
on user agents that pass validation. -/
theorem get_eq_builderFetchSync_of_valid (crate_name ua : String) (net : Net)
    (h : has_empty_user_agent ua = false) :
    get crate_name ua net = builderFetchSync crate_name ua net := by
  unfold get builderFetchSync KrateClientBuilder.build_sync KrateClientBuilder.new
  simp [h, SyncKrateClient.get]

/-- C1: the module-level sync convenience function `get` does not apply the
identification validation that the builder composition and `get_async`
apply.  On the all-whitespace user agent, with a transport answering 404 to
every request, `get` consults the network and reports the not-found error,
while the builder composition and `get_async` fail with the configuration
error without any network activity; in particular `get` differs from the
builder composition on this input, against the claimed equivalence. -/
theorem claim_C1 :
    get "serde" "   " net404 = Except.error (KError.krate KrateError.krateNotFound) ∧
    builderFetchSync "serde" "   " net404 =
      Except.error (KError.configError USER_AGENT_ERROR_MSG) ∧
    get_async "serde" "   " net404 =
      Except.error (KError.configError USER_AGENT_ERROR_MSG) ∧
    builderFetchAsync "serde" "   " net404 =
      Except.error (KError.configError USER_AGENT_ERROR_MSG) ∧
    get "serde" "   " net404 ≠ builderFetchSync "serde" "   " net404 := by
  refine ⟨rfl, rfl, rfl, rfl, ?_⟩
  intro h
  have h1 : get "serde" "   " net404 =
      Except.error (KError.krate KrateError.krateNotFound) := rfl
  have h2 : builderFetchSync "serde" "   " net404 =
      Except.error (KError.configError USER_AGENT_ERROR_MSG) := rfl
  rw [h1, h2] at h
  simp at h

/-- C2 as amended: for every identification string whose trimmed form is
non-empty, `build_sync` and `build_asnyc` succeed (transport construction is
modelled as succeeding); for every string that trims to empty, both fail
before any network call with the ConfigError message `User Agent must be a
string with at least one character`. -/
theorem claim_C2 (ua : String) :
    (rust_str_trim ua ≠ "" →
      (KrateClientBuilder.new ua).build_sync =
        Except.ok { user_agent := ua ++ " - Brought to you by: " ++ UNIQUE_USER_AGENT } ∧
      (KrateClientBuilder.new ua).build_asnyc =
        Except.ok { user_agent := ua ++ " - Brought to you by: " ++ UNIQUE_USER_AGENT }) ∧
    (rust_str_trim ua = "" →
      (KrateClientBuilder.new ua).build_sync =
        Except.error (KError.configError
          "User Agent must be a string with at least one character") ∧
      (KrateClientBuilder.new ua).build_asnyc =
        Except.error (KError.configError
          "User Agent must be a string with at least one character")) := by
  constructor
  · intro h
    have hb : has_empty_user_agent ua = false := by
      rw [← Bool.not_eq_true]
      intro hc
      exact h ((has_empty_user_agent_iff ua).mp hc)
    exact ⟨by simp [KrateClientBuilder.build_sync, KrateClientBuilder.new, hb],
           by simp [KrateClientBuilder.build_asnyc, KrateClientBuilder.new, hb]⟩
  · intro h
    have hb : has_empty_user_agent ua = true := (has_empty_user_agent_iff ua).mpr h
    exact ⟨by simp [KrateClientBuilder.build_sync, KrateClientBuilder.new, hb,
             USER_AGENT_ERROR_MSG],
           by simp [KrateClientBuilder.build_asnyc, KrateClientBuilder.new, hb,
             USER_AGENT_ERROR_MSG]⟩

/-- C2, witness: a visible user agent builds both clients; a single blank
fails both builds with the configuration error. -/
theorem claim_C2_witness :
    ((KrateClientBuilder.new "me").build_sync =
      Except.ok { user_agent := "me" ++ " - Brought to you by: " ++ UNIQUE_USER_AGENT } ∧
     (KrateClientBuilder.new "me").build_asnyc =
      Except.ok { user_agent := "me" ++ " - Brought to you by: " ++ UNIQUE_USER_AGENT }) ∧
    ((KrateClientBuilder.new " ").build_sync =
      Except.error (KError.configError
        "User Agent must be a string with at least one character") ∧
     (KrateClientBuilder.new " ").build_asnyc =
      Except.error (KError.configError
        "User Agent must be a string with at least one character")) :=
  ⟨(claim_C2 "me").1 (by decide), (claim_C2 " ").2 (by decide)⟩

/-- C2, counterexample to the claimed message text: on the empty user agent
both builds fail, but with the message `User Agent must be a string with at
least one character`, which is not the claimed message `identification must
contain at least one visible character`. -/
theorem claim_C2_counterexample :
    (KrateClientBuilder.new "").build_sync =
      Except.error (KError.configError
        "User Agent must be a string with at least one character") ∧
    (KrateClientBuilder.new "").build_asnyc =
      Except.error (KError.configError
        "User Agent must be a string with at least one character") ∧
    "User Agent must be a string with at least one character" ≠
      "identification must contain at least one visible character" :=
  ⟨rfl, rfl, by decide⟩

/-- C3 as amended: the classifier yields `KrateNotFound`, surfaced with the
fixed message `Crate name is not found. Did you mispell the crate name?`,
exactly when the carried HTTP status is 404; every other failure becomes
`OtherKrateError`, surfaced as `Server Status Error: ` followed by the
underlying description.  Moreover on a 404 response the fetch returns the
not-found error whatever the body holds, so no decode is attempted. -/
theorem claim_C3 (e : ReqwestError) (body : Json) (ua crate_name : String) :
    (e.status = some 404 →
      handle_error e = KrateError.krateNotFound ∧
      (handle_error e).message =
        "Crate name is not found. Did you mispell the crate name?") ∧
    (e.status ≠ some 404 →
      handle_error e = KrateError.otherKrateError e ∧
      (handle_error e).message = "Server Status Error: " ++ e.desc) ∧
    SyncKrateClient.get { user_agent := ua }
        (fun _ _ => Except.ok { status := 404, body := body }) crate_name =
      Except.error (KError.krate KrateError.krateNotFound) := by
  refine ⟨?_, ?_, ?_⟩
  · intro h
    have hb : (e.status == some 404) = true := by simp [h]
    constructor
    · unfold handle_error
      rw [hb]
      rfl
    · unfold handle_error
      rw [hb]
      rfl
  · intro h
    have hb : (e.status == some 404) = false := by simp [h]
    constructor
    · unfold handle_error
      rw [hb]
      rfl
    · unfold handle_error
      rw [hb]
      rfl
  · rfl

/-- C3, witness: a 404 error classifies as the not-found message, a 500
error classifies as a wrapped server-status message, and a 404 response is
never decoded. -/
theorem claim_C3_witness :
    (handle_error { status := some 404, desc := "d" } = KrateError.krateNotFound ∧
      (handle_error { status := some 404, desc := "d" }).message =
        "Crate name is not found. Did you mispell the crate name?") ∧
    (handle_error { status := some 500, desc := "boom" } =
        KrateError.otherKrateError { status := some 500, desc := "boom" } ∧
      (handle_error { status := some 500, desc := "boom" }).message =
        "Server Status Error: " ++ "boom") ∧
    SyncKrateClient.get { user_agent := "me" }
        (fun _ _ => Except.ok { status := 404, body := Json.null }) "serde" =
      Except.error (KError.krate KrateError.krateNotFound) :=
  ⟨(claim_C3 { status := some 404, desc := "d" } Json.null "me" "serde").1 rfl,
   (claim_C3 { status := some 500, desc := "boom" } Json.null "me" "serde").2.1 (by decide),
   (claim_C3 { status := some 404, desc := "d" } Json.null "me" "serde").2.2⟩

/-- C3, counterexample to the claimed message text: the 404 classification
is surfaced as `Crate name is not found. Did you mispell the crate name?`,
which is not the claimed fixed message `crate name is not found, check
spelling.`. -/
theorem claim_C3_counterexample :
    handle_error { status := some 404, desc := "d" } = KrateError.krateNotFound ∧
    KrateError.message KrateError.krateNotFound =
      "Crate name is not found. Did you mispell the crate name?" ∧
    KrateError.message KrateError.krateNotFound ≠
      "crate name is not found, check spelling." :=
  ⟨rfl, rfl, by decide⟩

/-- C4: on a record with a non-empty versions list, `get_latest` is exactly
the number of the first version; on an empty versions list the unguarded
indexing panics, modelled as `none`. -/
theorem claim_C4 (k : Krate) :
    (∀ v rest, k.versions = v :: rest → k.get_latest = some v.num) ∧
    (k.versions = [] → k.get_latest = none) := by
  constructor
  · intro v rest h
    unfold Krate.get_latest
    rw [h]
    rfl
  · intro h
    unfold Krate.get_latest
    rw [h]
    rfl

/-- C4, witness: the sample record yields its first version number; the
empty record yields the panic marker. -/
theorem claim_C4_witness :
    sampleKrate.get_latest = some vFeat.num ∧ emptyKrate.get_latest = none :=
  ⟨(claim_C4 sampleKrate).1 vFeat [vOld] rfl, (claim_C4 emptyKrate).2 rfl⟩

/-- C5 as amended: `get_features_for_version v` returns the feature mapping
of the first version whose number equals `v` and whose features field is
present, and `none` when no version both matches and carries features; a
matching version without features is skipped, not a terminal miss. -/
theorem claim_C5 (k : Krate) (version : String) :
    k.get_features_for_version version =
      (k.versions.find? (fun ver => ver.num == version && (ver.features).isSome)).bind
        (fun ver => ver.features) :=
  featuresLoop_eq_find version k.versions

/-- C5, counterexample: in `dupKrate` the first version numbered 1.0.0 has
no features field, so the claim as stated demands `none`; the code skips it
and returns the features of the later version with the same number. -/
theorem claim_C5_counterexample :
    dupKrate.get_features_for_version "1.0.0" = some [("serde", ["dep-serde"])] ∧
    dupKrate.versions.find? (fun ver => ver.num == "1.0.0") = some vNoFeat ∧
    vNoFeat.features = none :=
  ⟨rfl, rfl, rfl⟩

/-- C6 as amended: the decoder does not enforce non-emptiness of `versions`:
it accepts a structurally well-formed document whose versions array is
empty, on which `get_latest` then hits its unguarded indexing (the `none`
marker); the invariant is an assumption about registry responses, not a
property of the decoder. -/
theorem claim_C6 :
    (decodeKrate emptyVersionsJson).toOption = some emptyKrate ∧
    emptyKrate.get_latest = none :=
  ⟨rfl, rfl⟩

/-- C6, counterexample: a concrete JSON document that decodes successfully
to a record whose versions list is empty. -/
theorem claim_C6_counterexample :
    decodeKrate emptyVersionsJson = Except.ok emptyKrate ∧
    emptyKrate.versions = [] :=
  ⟨rfl, rfl⟩

/-- C7: whenever the builder constructs a client, sync or async, its
outgoing user-agent header is the caller string followed by
` - Brought to you by: ` and the fixed library identifier, the sync and
async headers coincide, and the module-level convenience functions run
exactly the fetch of a client configured with that same header. -/
theorem claim_C7 (ua crate_name : String) (net : Net)
    (c₁ : SyncKrateClient) (c₂ : AsyncKrateClient)
    (h₁ : (KrateClientBuilder.new ua).build_sync = Except.ok c₁)
    (h₂ : (KrateClientBuilder.new ua).build_asnyc = Except.ok c₂) :
    c₁.user_agent = ua ++ " - Brought to you by: " ++ UNIQUE_USER_AGENT ∧
    c₂.user_agent = c₁.user_agent ∧
    get crate_name ua net = c₁.get net crate_name ∧
    get_async crate_name ua net = c₂.get_async net crate_name := by
  cases hb : has_empty_user_agent ua with
  | true =>
    rw [KrateClientBuilder.build_sync] at h₁
    simp [KrateClientBuilder.new, hb] at h₁
  | false =>
    rw [KrateClientBuilder.build_sync] at h₁
    rw [KrateClientBuilder.build_asnyc] at h₂
    simp [KrateClientBuilder.new, hb] at h₁ h₂
    refine ⟨?_, ?_, ?_, ?_⟩
    · rw [← h₁]
    · rw [← h₁, ← h₂]
    · rw [← h₁]
      rfl
    · rw [← h₂]
      unfold get_async
      simp [hb, AsyncKrateClient.get_async]

/-- C7, witness: with the caller string `me`, every path carries the header
`me - Brought to you by: krates/0.3.0`. -/
theorem claim_C7_witness :
    (SyncKrateClient.mk "me - Brought to you by: krates/0.3.0").user_agent =
      "me" ++ " - Brought to you by: " ++ UNIQUE_USER_AGENT ∧
    (AsyncKrateClient.mk "me - Brought to you by: krates/0.3.0").user_agent =
      (SyncKrateClient.mk "me - Brought to you by: krates/0.3.0").user_agent ∧
    get "serde" "me" net404 =
      (SyncKrateClient.mk "me - Brought to you by: krates/0.3.0").get net404 "serde" ∧
    get_async "serde" "me" net404 =
      (AsyncKrateClient.mk "me - Brought to you by: krates/0.3.0").get_async net404 "serde" :=
  claim_C7 "me" "serde" net404
    (SyncKrateClient.mk "me - Brought to you by: krates/0.3.0")
    (AsyncKrateClient.mk "me - Brought to you by: krates/0.3.0") rfl rfl

/-- C8: a 2xx response whose body fails to decode as a Krate record makes
both fetches return the propagated decode error, which surfaces exactly the
decode description and belongs to the Other kind of the taxonomy (it is
neither a configuration error nor the not-found error); being an error, no
partial result is returned. -/
theorem claim_C8 (res : HttpResponse) (d ua crate_name : String)
    (hlo : 200 ≤ res.status) (hhi : res.status ≤ 299)
    (hd : decodeKrate res.body = Except.error d) :
    SyncKrateClient.get { user_agent := ua } (fun _ _ => Except.ok res) crate_name =
      Except.error (KError.reqwest { status := none, desc := d }) ∧
    AsyncKrateClient.get_async { user_agent := ua } (fun _ _ => Except.ok res) crate_name =
      Except.error (KError.reqwest { status := none, desc := d }) ∧
    (KError.reqwest { status := none, desc := d }).message = d ∧
    (∀ msg, KError.reqwest { status := none, desc := d } ≠ KError.configError msg) ∧
    KError.reqwest { status := none, desc := d } ≠
      KError.krate KrateError.krateNotFound := by
  have hc : (400 ≤ res.status && res.status ≤ 599) = false := by
    simp only [Bool.and_eq_false_iff, decide_eq_false_iff_not]
    left
    omega
  refine ⟨?_, ?_, rfl, ?_, ?_⟩
  · unfold SyncKrateClient.get
    simp [errorForStatus, hc, resJson, hd]
  · unfold AsyncKrateClient.get_async
    simp [errorForStatus, hc, resJson, hd]
  · intro msg h
    exact KError.noConfusion h
  · intro h
    exact KError.noConfusion h

/-- C8, witness: a 200 response whose body is the JSON null fails to decode
and both fetches surface the decode description. -/
theorem claim_C8_witness :
    SyncKrateClient.get { user_agent := "me" }
        (fun _ _ => Except.ok { status := 200, body := Json.null }) "serde" =
      Except.error (KError.reqwest
        { status := none, desc := "invalid type: expected a map" }) ∧
    AsyncKrateClient.get_async { user_agent := "me" }
        (fun _ _ => Except.ok { status := 200, body := Json.null }) "serde" =
      Except.error (KError.reqwest
        { status := none, desc := "invalid type: expected a map" }) ∧
    (KError.reqwest { status := none, desc := "invalid type: expected a map" }).message =
      "invalid type: expected a map" ∧
    (∀ msg, KError.reqwest { status := none, desc := "invalid type: expected a map" } ≠
      KError.configError msg) ∧
    KError.reqwest { status := none, desc := "invalid type: expected a map" } ≠
      KError.krate KrateError.krateNotFound :=
  claim_C8 { status := 200, body := Json.null } "invalid type: expected a map"
    "me" "serde" (by decide) (by decide) rfl

/-- C9: the feature lookup is total at the public interface: on a record
whose versions list is empty it returns `none` rather than failing, while
`get_latest` on the same record hits its unguarded indexing, modelled as
the `none` panic marker. -/
theorem claim_C9 (k : Krate) (version : String) (h : k.versions = []) :
    k.get_features_for_version version = none ∧ k.get_latest = none := by
  unfold Krate.get_features_for_version Krate.get_latest
  rw [h]
  exact ⟨rfl, rfl⟩

/-- C9, witness: the lookup on the empty record answers `none` while
`get_latest` hits the panic marker. -/
theorem claim_C9_witness :
    emptyKrate.get_features_for_version "1.0.0" = none ∧
    emptyKrate.get_latest = none :=
  claim_C9 emptyKrate "1.0.0" rfl

/-- C10: the feature lookup does not stop at the first version whose number
matches: among the versions whose number equals the request, it returns the
first present features field, and it succeeds exactly when some version
matches the number and carries a features field. -/
theorem claim_C10 (k : Krate) (version : String) :
    k.get_features_for_version version =
      (k.versions.filter (fun ver => ver.num == version)).findSome?
        (fun ver => ver.features) ∧
    (k.get_features_for_version version).isSome =
      k.versions.any (fun ver => ver.num == version && (ver.features).isSome) :=
  ⟨featuresLoop_eq_findSome version k.versions,
   featuresLoop_isSome version k.versions⟩

end Krates
